import Mathlib

/-!
Verification of the TE GROUP Telegram lead-intake funnel against its
natural-language specification.  The Python sources (bot/handlers/funnel.py,
bot/middleware.py, bot/db.py, bot/keyboards.py, bot/handlers/common.py,
bot/config.py, bot/states.py, bot/main.py) are shallowly embedded below:
pure functions become Lean functions, the per-user FSM state and accumulated
data become an explicit state record, handlers become state transformers that
also emit a list of outbound effects, and Python floats are modelled as
rationals (every numeric constant appearing in the program and in the claims
is exactly representable, so no rounding behaviour is lost).
-/

namespace TEGroup

/-! ## A model of Python `float(str)` parsing

`float(raw)` in CPython strips whitespace, then accepts an optional sign,
a decimal mantissa (digits with an optional single dot), and an optional
exponent part.  We model exactly that fragment (the special forms
`inf`/`nan`/underscore separators never arise in this program: every string
reaching `float` is user text that either parses as a plain decimal or is
rejected).  Failure is `none`, mirroring `ValueError`. -/

def splitFirst (sep : Char) : List Char → Option (List Char × List Char)
  | [] => none
  | c :: cs =>
    if c = sep then some ([], cs)
    else
      match splitFirst sep cs with
      | some (a, b) => some (c :: a, b)
      | none => none

/-- Model of Python `str.strip()` (no arguments): remove leading and trailing
whitespace.  Stated on `List Char` so that the kernel can evaluate it. -/
def pyStrip (l : List Char) : List Char :=
  ((l.dropWhile Char.isWhitespace).reverse.dropWhile Char.isWhitespace).reverse

/-- Model of Python `str.replace(old, new)` for a single-character `old`
replaced by a single-character `new` (the only shape used by the funnel:
`.replace(",", ".")`). -/
def pyReplaceChar (old new : Char) (l : List Char) : List Char :=
  l.map (fun c => if c = old then new else c)

/-- Model of Python `str.replace(old, "")` for a single-character `old`
(the funnel uses `.replace("$", "")`). -/
def pyDropChar (old : Char) (l : List Char) : List Char :=
  l.filter (fun c => c ≠ old)

def natOfDigits (l : List Char) : Nat :=
  l.foldl (fun a c => a * 10 + (c.toNat - 48)) 0

def allDigits (l : List Char) : Bool :=
  l.all (fun c => c.isDigit)

def parseSign : List Char → (Int × List Char)
  | '+' :: cs => (1, cs)
  | '-' :: cs => (-1, cs)
  | cs => (1, cs)

def parseMantissa (l : List Char) : Option Rat :=
  let sg := (parseSign l).1
  let rest := (parseSign l).2
  let ip := match splitFirst '.' rest with
    | some (a, _) => a
    | none => rest
  let fp := match splitFirst '.' rest with
    | some (_, b) => b
    | none => []
  if ip ++ fp = [] then none
  else if allDigits ip && allDigits fp then
    some ((sg : Rat) * (natOfDigits (ip ++ fp) : Rat) / ((10 : Rat) ^ fp.length))
  else none

def parseExponent (l : List Char) : Option Int :=
  let sg := (parseSign l).1
  let rest := (parseSign l).2
  if rest ≠ [] && allDigits rest then some (sg * (natOfDigits rest : Int)) else none

/-- Model of Python `float(s)` on decimal input: `none` models `ValueError`. -/
def pyFloat (s : String) : Option Rat :=
  let l := (pyStrip s.data).map Char.toLower
  match splitFirst 'e' l with
  | none => parseMantissa l
  | some (m, e) =>
    match parseMantissa m, parseExponent e with
    | some mv, some ev => some (mv * (10 : Rat) ^ ev)
    | _, _ => none

/-! ## Static token tables (bot/keyboards.py)

Association lists keyed by token, in source order.  `alookup` models Python
`dict.get` (the tables have no duplicate keys, so first-match equals
dict lookup). -/

def alookup (t : List (String × Rat)) (v : String) : Option Rat :=
  match t with
  | [] => none
  | (k, x) :: rest => if v = k then some x else alookup rest v

/-- keyboards.py `WEIGHT_TO_FLOAT`. -/
def WEIGHT_TO_FLOAT : List (String × Rat) :=
  [("w_100", 50), ("w_500", 300), ("w_1000", 750),
   ("w_5000", 3000), ("w_20000", 12500), ("w_20000p", 25000)]

/-- keyboards.py `VOLUME_TO_FLOAT`. -/
def VOLUME_TO_FLOAT : List (String × Rat) :=
  [("v_1", 1/2), ("v_5", 3), ("v_10", 15/2),
   ("v_33", 43/2), ("v_67", 50), ("v_67p", 80)]

/-- keyboards.py `INVOICE_TO_FLOAT`. -/
def INVOICE_TO_FLOAT : List (String × Rat) :=
  [("inv_1000", 500), ("inv_5000", 3000), ("inv_20000", 12500),
   ("inv_50000", 35000), ("inv_100000", 75000), ("inv_100000p", 150000)]

/-! ## Resolution helpers (funnel.py lines 696-708) -/

/-- funnel.py `_safe_float`: `float(v)` with `ValueError`/`TypeError`
mapped to `0.0`. -/
def safe_float (v : String) : Rat :=
  match pyFloat v with
  | some x => x
  | none => 0

/-- funnel.py `_resolve_weight`: `WEIGHT_TO_FLOAT.get(value) or _safe_float(value)`.
Python `or` falls through when the left side is falsy (`None` for a missing
key, `0.0` for a zero table value). -/
def resolve_weight (value : String) : Rat :=
  match alookup WEIGHT_TO_FLOAT value with
  | some x => if x = 0 then safe_float value else x
  | none => safe_float value

/-- funnel.py `_resolve_volume`: `VOLUME_TO_FLOAT.get(value) or _safe_float(value)`. -/
def resolve_volume (value : String) : Rat :=
  match alookup VOLUME_TO_FLOAT value with
  | some x => if x = 0 then safe_float value else x
  | none => safe_float value

/-- Modelled from the spec: the numeric-parse fallback the spec describes for
weight/volume resolution, namely a parse "accepting comma as decimal
separator".  Used only to compare the spec wording against the source
functions above. -/
def specNumericParse (v : String) : Option Rat :=
  pyFloat ⟨pyReplaceChar ',' '.' v.data⟩

/-- Modelled from the spec: weight resolution as worded in the spec —
table lookup first, otherwise comma-tolerant numeric parse, otherwise zero. -/
def specResolveWeight (v : String) : Rat :=
  match alookup WEIGHT_TO_FLOAT v with
  | some x => x
  | none => (specNumericParse v).getD 0

/-! ## FSM states and per-user accumulated data

bot/states.py defines `OrderForm`; the FSM state of a user is either one of
these states or absent (`none`, aiogram MemoryStorage after `state.clear()`
or a restart).  The accumulated data is a dict; we record exactly the keys
the handlers write, each `Option` (absent key = `none`). -/

inductive OrderForm where
  | service
  | customs_cargo
  | customs_country
  | invoice_value
  | customs_urgency
  | country
  | city
  | cargo_type
  | weight
  | volume
  | urgency
  | incoterms
  | phone
  | comment
deriving DecidableEq

/-- The per-user FSM data dict.  `card_message_id` is the key used by
funnel.py; common.py (cmd_start / expired_callback) writes `card_id`. -/
structure ConvData where
  card_message_id : Option Nat := none
  card_id : Option Nat := none
  service : Option String := none
  cargo_type : Option String := none
  country : Option String := none
  invoice_value : Option String := none
  invoice_value_num : Option Rat := none
  customs_urgency : Option String := none
  city_from : Option String := none
  weight_kg : Option String := none
  volume_m3 : Option String := none
  urgency : Option String := none
  incoterms : Option String := none
  phone : Option String := none
  comment : Option String := none
deriving DecidableEq

def emptyConvData : ConvData := {}

/-- FSM state plus accumulated data for one user. -/
abbrev ConvState := Option OrderForm × ConvData

/-- The Telegram user attached to an update.  `username` carries the value of
`user.username or ""` and `full_name` that of `user.full_name or ""`, as
read in `_finish_order`. -/
structure TgUser where
  id : Int
  username : String
  full_name : String
deriving DecidableEq

/-- funnel.py `TOTAL_CUSTOMS`. -/
def TOTAL_CUSTOMS : Nat := 5

/-- funnel.py `TOTAL_DELIVERY`. -/
def TOTAL_DELIVERY : Nat := 8

/-! ## Question / warning texts (funnel.py, common.py) -/

def qCustomsCargo : String := "📦 <b>Что за товар хотите растаможить?</b>"

def qCustomsCountry : String := "🌍 <b>Из какой страны везёте товар?</b>"

def qInvoice : String :=
  "💰 <b>Укажите стоимость товара (USD):</b>\n<i>Нужно для расчёта таможенных платежей</i>"

def qInvoiceText : String := "💰 <b>Введите сумму в USD</b> (например: 15000):"

def qCustomsUrgency : String := "⏰ <b>Когда нужна доставка?</b>"

def qDeliveryCountry : String := "🌍 <b>Выберите страну отправления:</b>"

def qCountryText : String := "🌍 <b>Введите название страны:</b>"

def qCity : String := "📍 <b>Выберите город отправления:</b>"

def qCityText : String := "📍 <b>Введите название города:</b>"

def qCargo : String := "📦 <b>Выберите тип груза:</b>"

def qWeight : String := "⚖️ <b>Укажите вес груза:</b>"

def qWeightText : String := "⚖️ <b>Введите точный вес в кг</b> (например: 500):"

def qVolume : String := "📐 <b>Укажите объём груза:</b>"

def qVolumeText : String := "📐 <b>Введите точный объём в м³</b> (например: 2.5):"

def qUrgency : String := "⏰ <b>Выберите срочность доставки:</b>"

def qIncoterms : String := "📋 <b>Условия поставки (Инкотермс):</b>"

def qPhone : String := "📱 <b>Поделитесь контактом или введите номер:</b>"

def qComment : String := "💬 <b>Добавьте комментарий</b> (необязательно):"

def warnCountry : String := "⚠️ Введите корректное название страны."

def warnCity : String := "⚠️ Введите корректное название города."

def warnInvoice : String := "⚠️ Введите сумму числом, например: 15000"

def warnWeight : String := "⚠️ Введите число больше 0 (например: 500)."

def warnVolume : String := "⚠️ Введите число больше 0 (например: 2.5)."

def warnPhone : String :=
  "⚠️ Введите номер телефона или нажмите кнопку «📱 Поделиться номером»."

def errCityFormat : String := "Ошибка формата кнопки."

/-- common.py `expired_callback`: the session-expired acknowledgement text. -/
def sessionExpiredText : String := "⏳ Сессия истекла — начинаем заново"

/-- common.py `WELCOME_TEXT` (the screen the fallback restarts users on). -/
def WELCOME_TEXT : String :=
  "🏢  <b>TE GROUP</b>\n━━━━━━━━━━━━━━━━━━━━\n\nИмпорт товаров <b>в Россию</b>\nчерез ЕАЭС · Кыргызстан\n\n✓ Самые низкие ставки таможни в ЕАЭС\n✓ Свободная продажа в РФ без повторной растаможки\n✓ Доставка из Китая, Турции, ОАЭ, Израиля\n✓ Полностью легально, все документы\n\n━━━━━━━━━━━━━━━━━━━━\n👇 <b>Чем можем помочь?</b>"

/-! ## The in-memory lead record and the persisted row

`_finish_order` builds a `lead_data` dict; the customs branch and the
delivery branch populate different key subsets.  Keys a branch does not set
are absent in Python; `save_lead` reads them with `data.get(key, default)`,
which the `:=` field defaults below reproduce exactly. -/

structure LeadData where
  telegram_id : Int
  username : String
  full_name : String
  service_type : String
  country : String
  phone : String
  comment : String
  cargo_type : String := ""
  invoice_value : String := ""
  invoice_value_num : Rat := 0
  customs_urgency : String := ""
  city_from : String := ""
  weight_kg : Rat := 0
  volume_m3 : Rat := 0
  urgency : String := ""
  incoterms : String := ""
deriving DecidableEq

/-- The row db.py `save_lead` INSERTs into `leads` (values `$1`..`$16`,
with the literal `'NEW'` status). -/
structure LeadRow where
  telegram_id : Int
  username : String
  full_name : String
  service_type : String
  customs_direction : String
  invoice_value : Rat
  country : String
  city_from : String
  cargo_type : String
  weight_kg : Rat
  volume_m3 : Rat
  urgency : String
  incoterms : String
  phone : String
  comment : String
  status : String
deriving DecidableEq

/-- db.py `save_lead`, the argument tuple of the INSERT.  The funnel never
sets `customs_direction`, so `data.get("customs_direction", "")` is `""`;
`float(x or 0)` on the already-numeric weight/volume/invoice values is the
identity (and `0` for the absent keys, via the `LeadData` defaults). -/
def save_lead_row (data : LeadData) : LeadRow :=
  { telegram_id := data.telegram_id
    username := data.username
    full_name := data.full_name
    service_type := data.service_type
    customs_direction := ""
    invoice_value := data.invoice_value_num
    country := data.country
    city_from := data.city_from
    cargo_type := data.cargo_type
    weight_kg := data.weight_kg
    volume_m3 := data.volume_m3
    urgency := data.urgency
    incoterms := data.incoterms
    phone := data.phone
    comment := data.comment
    status := "NEW" }

/-! ## Outbound effects

Handlers are embedded as pure functions `ConvState → List Effect × ConvState`.
An `Effect` records one outbound chat action.  Rich message bodies are
recorded by the data they are rendered from: `editCard d step q` stands for
`_edit_card(..., _card(data, step, question), ...)` — the renderer `_card`
is a pure function of exactly these three arguments, so the effect captures
everything the edit depends on.  Likewise `sendConfirmation` and
`notifyAdmin` carry the full in-memory lead record their message text is
built from.  `_edit_card` falling back to a fresh message on a transport
error is outside every claim here; edits are modelled as succeeding, so the
card message id is returned unchanged. -/

inductive Effect where
  | editCard (d : ConvData) (step : Nat) (question : String)
  | editWelcome
  | editCustomsIntro
  | sendText (t : String)
  | answerCb (t : Option String)
  | clearMarkup
  | sendPhoneKb
  | sendConfirmation (leadId : Int) (lead : LeadData)
  | notifyAdmin (adminId : Int) (leadId : Int) (lead : LeadData)
deriving DecidableEq

/-! ## Callback-data parsing helpers

Python `"a:b:c".split(":")` and `split(":", 2)`, on char lists. -/

def splitColonAux : List Char → List Char → List (List Char)
  | [], acc => [acc.reverse]
  | c :: cs, acc =>
    if c = ':' then acc.reverse :: splitColonAux cs []
    else splitColonAux cs (c :: acc)

/-- Python `s.split(":")`. -/
def splitColon (l : List Char) : List (List Char) :=
  splitColonAux l []

/-- Python `s.split(":", 2)`. -/
def splitColonMax2 (l : List Char) : List (List Char) :=
  match splitFirst ':' l with
  | none => [l]
  | some (a, b) =>
    match splitFirst ':' b with
    | none => [a, b]
    | some (c, rest) => [a, c, rest]

/-- `cb.data.split(":")[1]`: the second colon-separated part.  Every caller
guards it with a `"prefix:"`-shaped filter, so the part exists; the `getD`
default is never reached. -/
def secondPart (d : String) : String :=
  ⟨(splitColon d.data)[1]?.getD []⟩

/-- Models Python `str(float(w))` as stored back by `type_weight` /
`type_volume`.  Only determinism matters to any claim (the stored string is
re-parsed at finalization and never compared textually), so integral values
render as Python does and other rationals render as `num/den`. -/
def pyStrOfFloat (q : Rat) : String :=
  if q.den = 1 then toString q.num ++ ".0"
  else toString q.num ++ "/" ++ toString q.den

/-! ## Funnel handlers (funnel.py)

Each handler mirrors one aiogram handler body: data updates, card edit,
state transition, outbound messages, in source order.  The card message id
written back after `_edit_card` equals the id read before it (edits
succeed, see above); `data.get("card_message_id", 0)` is modelled by
`getD 0`. -/

def pick_service (v : String) (cs : ConvState) : List Effect × ConvState :=
  let d := { cs.2 with service := some v }
  if v = "customs" then
    ([.editCustomsIntro, .answerCb none], (some .customs_cargo, d))
  else
    ([.editCard d 0 qDeliveryCountry, .answerCb none], (some .country, d))

def pick_customs_cargo (v : String) (cs : ConvState) : List Effect × ConvState :=
  let d := { cs.2 with cargo_type := some v }
  ([.editCard d 1 qCustomsCountry, .answerCb none], (some .customs_country, d))

def pick_customs_country (v : String) (cs : ConvState) : List Effect × ConvState :=
  if v = "other" then
    ([.editCard cs.2 1 qCountryText, .answerCb none], cs)
  else
    let d := { cs.2 with country := some v }
    ([.editCard d 2 qInvoice, .answerCb none], (some .invoice_value, d))

def type_customs_country (text : Option String) (cs : ConvState) :
    List Effect × ConvState :=
  let c := pyStrip (text.getD "").data
  if c.length < 2 then ([.sendText warnCountry], cs)
  else
    let d1 := { cs.2 with country := some ⟨c⟩ }
    let cid := d1.card_message_id.getD 0
    ([.editCard d1 2 qInvoice],
     (some .invoice_value, { d1 with card_message_id := some cid }))

def pick_invoice (v : String) (cs : ConvState) : List Effect × ConvState :=
  if v = "__custom__" then
    ([.editCard cs.2 2 qInvoiceText, .answerCb none], cs)
  else
    let num := (alookup INVOICE_TO_FLOAT v).getD 0
    let d := { cs.2 with invoice_value := some v, invoice_value_num := some num }
    ([.editCard d 3 qCustomsUrgency, .answerCb none], (some .customs_urgency, d))

def type_invoice (text : Option String) (cs : ConvState) :
    List Effect × ConvState :=
  let raw := pyStrip (pyDropChar '$' (pyReplaceChar ',' '.' (text.getD "").data))
  match pyFloat ⟨raw⟩ with
  | none => ([.sendText warnInvoice], cs)
  | some num =>
    if num ≤ 0 then ([.sendText warnInvoice], cs)
    else
      let d1 := { cs.2 with invoice_value := some ⟨raw⟩, invoice_value_num := some num }
      let cid := d1.card_message_id.getD 0
      ([.editCard d1 3 qCustomsUrgency],
       (some .customs_urgency, { d1 with card_message_id := some cid }))

def pick_customs_urgency (v : String) (cs : ConvState) : List Effect × ConvState :=
  let d := { cs.2 with customs_urgency := some v }
  let cid := d.card_message_id.getD 0
  ([.editCard d 4 qPhone, .sendPhoneKb, .answerCb none],
   (some .phone, { d with card_message_id := some cid }))

def pick_country (v : String) (cs : ConvState) : List Effect × ConvState :=
  if v = "other" then
    ([.editCard cs.2 0 qCountryText, .answerCb none], cs)
  else
    let d := { cs.2 with country := some v }
    ([.editCard d 1 qCity, .answerCb none], (some .city, d))

def type_other_country (text : Option String) (cs : ConvState) :
    List Effect × ConvState :=
  let c := pyStrip (text.getD "").data
  if c.length < 2 then ([.sendText warnCountry], cs)
  else
    let d1 := { cs.2 with country := some ⟨c⟩ }
    let cid := d1.card_message_id.getD 0
    ([.editCard d1 1 qCity], (some .city, { d1 with card_message_id := some cid }))

def pick_city (dataStr : String) (cs : ConvState) : List Effect × ConvState :=
  let parts := splitColonMax2 dataStr.data
  if parts.length < 3 then ([.answerCb (some errCityFormat)], cs)
  else
    let city_name : String := ⟨parts[2]?.getD []⟩
    if city_name = "__custom__" then
      ([.editCard cs.2 1 qCityText, .answerCb none], cs)
    else
      let d := { cs.2 with city_from := some city_name }
      ([.editCard d 2 qCargo, .answerCb none], (some .cargo_type, d))

def type_city (text : Option String) (cs : ConvState) : List Effect × ConvState :=
  let c := pyStrip (text.getD "").data
  if c.length < 2 then ([.sendText warnCity], cs)
  else
    let d1 := { cs.2 with city_from := some ⟨c⟩ }
    let cid := d1.card_message_id.getD 0
    ([.editCard d1 2 qCargo],
     (some .cargo_type, { d1 with card_message_id := some cid }))

def pick_cargo (v : String) (cs : ConvState) : List Effect × ConvState :=
  let d := { cs.2 with cargo_type := some v }
  ([.editCard d 3 qWeight, .answerCb none], (some .weight, d))

def pick_weight (v : String) (cs : ConvState) : List Effect × ConvState :=
  if v = "__custom__" then
    ([.editCard cs.2 3 qWeightText, .answerCb none], cs)
  else
    let d := { cs.2 with weight_kg := some v }
    ([.editCard d 4 qVolume, .answerCb none], (some .volume, d))

def type_weight (text : Option String) (cs : ConvState) : List Effect × ConvState :=
  let raw := pyStrip (pyReplaceChar ',' '.' (text.getD "").data)
  match pyFloat ⟨raw⟩ with
  | none => ([.sendText warnWeight], cs)
  | some w =>
    if w ≤ 0 then ([.sendText warnWeight], cs)
    else
      let d1 := { cs.2 with weight_kg := some (pyStrOfFloat w) }
      let cid := d1.card_message_id.getD 0
      ([.editCard d1 4 qVolume],
       (some .volume, { d1 with card_message_id := some cid }))

def pick_volume (v : String) (cs : ConvState) : List Effect × ConvState :=
  if v = "__custom__" then
    ([.editCard cs.2 4 qVolumeText, .answerCb none], cs)
  else
    let d := { cs.2 with volume_m3 := some v }
    ([.editCard d 5 qUrgency, .answerCb none], (some .urgency, d))

def type_volume (text : Option String) (cs : ConvState) : List Effect × ConvState :=
  let raw := pyStrip (pyReplaceChar ',' '.' (text.getD "").data)
  match pyFloat ⟨raw⟩ with
  | none => ([.sendText warnVolume], cs)
  | some v =>
    if v ≤ 0 then ([.sendText warnVolume], cs)
    else
      let d1 := { cs.2 with volume_m3 := some (pyStrOfFloat v) }
      let cid := d1.card_message_id.getD 0
      ([.editCard d1 5 qUrgency],
       (some .urgency, { d1 with card_message_id := some cid }))

def pick_urgency (v : String) (cs : ConvState) : List Effect × ConvState :=
  let d := { cs.2 with urgency := some v }
  ([.editCard d 6 qIncoterms, .answerCb none], (some .incoterms, d))

def pick_incoterms (v : String) (cs : ConvState) : List Effect × ConvState :=
  let d := { cs.2 with incoterms := some v }
  let cid := d.card_message_id.getD 0
  ([.editCard d 7 qPhone, .sendPhoneKb, .answerCb none],
   (some .phone, { d with card_message_id := some cid }))

def share_phone_contact (phoneNumber : String) (cs : ConvState) :
    List Effect × ConvState :=
  let d1 := { cs.2 with phone := some phoneNumber }
  let total := if d1.service.getD "" = "customs" then TOTAL_CUSTOMS else TOTAL_DELIVERY
  let cid := d1.card_message_id.getD 0
  ([.editCard d1 total qComment, .sendText "✅"],
   (some .comment, { d1 with card_message_id := some cid }))

def type_phone (text : Option String) (cs : ConvState) : List Effect × ConvState :=
  let phone := pyStrip (text.getD "").data
  if phone.length < 6 then ([.sendText warnPhone], cs)
  else
    let d1 := { cs.2 with phone := some ⟨phone⟩ }
    let total := if d1.service.getD "" = "customs" then TOTAL_CUSTOMS else TOTAL_DELIVERY
    let cid := d1.card_message_id.getD 0
    ([.editCard d1 total qComment, .sendText "✅"],
     (some .comment, { d1 with card_message_id := some cid }))

/-! ## Finalization (funnel.py `_finish_order`, lines 713-857)

External outcomes are parameters: `saveRes = some id` models `save_lead`
returning the new row id, `saveRes = none` models `save_lead` raising (for
example `_check_pool` raising `RuntimeError("Database is not available")`
when `pool is None`, or an acquire timeout).  `adminOk a` models whether
`bot.send_message(admin_id, ...)` succeeds for that recipient; a failure is
caught by the per-recipient `try/except` and only logged.  The returned
`Bool` is true when an exception escapes the handler.  Note the source has
no `try/except` around `save_lead(lead_data)`: when it raises, nothing
after line 748 executes — no confirmation, no notification, no
`state.clear()`. -/

def buildLeadData (u : TgUser) (d : ConvData) : LeadData :=
  let service := d.service.getD "delivery"
  if service = "customs" then
    { telegram_id := u.id
      username := u.username
      full_name := u.full_name
      service_type := service
      country := d.country.getD ""
      phone := d.phone.getD ""
      comment := d.comment.getD ""
      cargo_type := d.cargo_type.getD ""
      invoice_value := d.invoice_value.getD ""
      invoice_value_num := d.invoice_value_num.getD 0
      customs_urgency := d.customs_urgency.getD "" }
  else
    { telegram_id := u.id
      username := u.username
      full_name := u.full_name
      service_type := service
      country := d.country.getD ""
      phone := d.phone.getD ""
      comment := d.comment.getD ""
      city_from := d.city_from.getD ""
      cargo_type := d.cargo_type.getD ""
      weight_kg := resolve_weight (d.weight_kg.getD "0")
      volume_m3 := resolve_volume (d.volume_m3.getD "0")
      urgency := d.urgency.getD ""
      incoterms := d.incoterms.getD "" }

def finish_order (u : TgUser) (admins : List Int) (adminOk : Int → Bool)
    (saveRes : Option Int) (cs : ConvState) : List Effect × ConvState × Bool :=
  let lead := buildLeadData u cs.2
  match saveRes with
  | none => ([], cs, true)
  | some leadId =>
    let notifies := admins.filterMap fun a =>
      if adminOk a then some (Effect.notifyAdmin a leadId lead) else none
    (Effect.sendConfirmation leadId lead :: notifies, (none, emptyConvData), false)

def skip_comment (u : TgUser) (admins : List Int) (adminOk : Int → Bool)
    (saveRes : Option Int) (cs : ConvState) : List Effect × ConvState × Bool :=
  let d1 := { cs.2 with comment := some "" }
  let r := finish_order u admins adminOk saveRes (cs.1, d1)
  if r.2.2 then (Effect.clearMarkup :: r.1, r.2)
  else (Effect.clearMarkup :: r.1 ++ [Effect.answerCb none], r.2)

def type_comment (u : TgUser) (admins : List Int) (adminOk : Int → Bool)
    (saveRes : Option Int) (text : Option String) (cs : ConvState) :
    List Effect × ConvState × Bool :=
  let d1 := { cs.2 with comment := some ⟨pyStrip (text.getD "").data⟩ }
  finish_order u admins adminOk saveRes (cs.1, d1)

/-! ## Back navigation (funnel.py `handle_back`, lines 864-954) -/

def handle_back (dataStr : String) (cs : ConvState) : List Effect × ConvState :=
  let target := secondPart dataStr
  let d := cs.2
  if target = "service" then
    ([.editWelcome, .answerCb none], (some .service, d))
  else if target = "customs_cargo" then
    ([.editCustomsIntro, .answerCb none], (some .customs_cargo, d))
  else if target = "customs_country" then
    ([.editCard d 1 qCustomsCountry, .answerCb none], (some .customs_country, d))
  else if target = "invoice" then
    ([.editCard d 2 qInvoice, .answerCb none], (some .invoice_value, d))
  else if target = "customs_urgency" then
    ([.editCard d 3 qCustomsUrgency, .answerCb none], (some .customs_urgency, d))
  else if target = "country" then
    ([.editCard d 0 qDeliveryCountry, .answerCb none], (some .country, d))
  else if target = "city" then
    ([.editCard d 1 qCity, .answerCb none], (some .city, d))
  else if target = "cargo" then
    ([.editCard d 2 qCargo, .answerCb none], (some .cargo_type, d))
  else if target = "weight" then
    ([.editCard d 3 qWeight, .answerCb none], (some .weight, d))
  else if target = "volume" then
    ([.editCard d 4 qVolume, .answerCb none], (some .volume, d))
  else if target = "urgency" then
    ([.editCard d 5 qUrgency, .answerCb none], (some .urgency, d))
  else if target = "incoterms" then
    ([.editCard d 6 qIncoterms, .answerCb none], (some .incoterms, d))
  else
    ([.answerCb none], cs)

/-! ## Fallback recovery (common.py `expired_callback`) -/

def expired_callback (newMsgId : Nat) (_cs : ConvState) : List Effect × ConvState :=
  ([.answerCb (some sessionExpiredText), .sendText WELCOME_TEXT],
   (some .service, { emptyConvData with card_id := some newMsgId }))

/-! ## Callback-query dispatch (main.py router order)

`main` includes routers in the order common, admin, funnel, fallback.
Neither common.router nor admin.router registers a callback-query handler,
so a callback query is tried against funnel.py handlers in registration
order and, if none matches, falls to common.py `fallback_router`'s
catch-all `expired_callback`.  A funnel handler with an `OrderForm.x`
filter matches only in that state; `handle_back`, the four `action:*`
handlers and the two `adm:*` handlers carry no state filter and match in
every state, including `none`. -/

inductive CbHandler where
  | hPickService
  | hPickCustomsCargo
  | hPickCustomsCountry
  | hPickInvoice
  | hPickCustomsUrgency
  | hPickCountry
  | hPickCity
  | hPickCargo
  | hPickWeight
  | hPickVolume
  | hPickUrgency
  | hPickIncoterms
  | hSkipComment
  | hHandleBack
  | hActionDocs
  | hActionDetails
  | hActionCall
  | hActionRestart
  | hAdmTakeProgress
  | hAdmShowPhone
  | hExpiredCallback
deriving DecidableEq

/-- Python `str.startswith`, the shape of every `F.data.startswith(...)`
filter. -/
def startsWithStr (p : String) (d : String) : Bool :=
  p.data.isPrefixOf d.data

/-- Which handler receives a callback query with FSM state `st` and
callback data `d`: first matching filter wins. -/
def dispatchCallback (st : Option OrderForm) (d : String) : CbHandler :=
  if st = some OrderForm.service ∧ startsWithStr "service:" d then .hPickService
  else if st = some OrderForm.customs_cargo ∧ startsWithStr "cargo:" d then .hPickCustomsCargo
  else if st = some OrderForm.customs_country ∧ startsWithStr "country:" d then .hPickCustomsCountry
  else if st = some OrderForm.invoice_value ∧ startsWithStr "invoice:" d then .hPickInvoice
  else if st = some OrderForm.customs_urgency ∧ startsWithStr "curgency:" d then .hPickCustomsUrgency
  else if st = some OrderForm.country ∧ startsWithStr "country:" d then .hPickCountry
  else if st = some OrderForm.city ∧ startsWithStr "city:" d then .hPickCity
  else if st = some OrderForm.cargo_type ∧ startsWithStr "cargo:" d then .hPickCargo
  else if st = some OrderForm.weight ∧ startsWithStr "weight:" d then .hPickWeight
  else if st = some OrderForm.volume ∧ startsWithStr "volume:" d then .hPickVolume
  else if st = some OrderForm.urgency ∧ startsWithStr "urgency:" d then .hPickUrgency
  else if st = some OrderForm.incoterms ∧ startsWithStr "terms:" d then .hPickIncoterms
  else if st = some OrderForm.comment ∧ d = "skip_comment" then .hSkipComment
  else if startsWithStr "back:" d then .hHandleBack
  else if d = "action:docs" then .hActionDocs
  else if d = "action:details" then .hActionDetails
  else if d = "action:call" then .hActionCall
  else if d = "action:restart" then .hActionRestart
  else if startsWithStr "adm:progress:" d then .hAdmTakeProgress
  else if startsWithStr "adm:call:" d then .hAdmShowPhone
  else .hExpiredCallback

/-! ## Anti-spam middleware (bot/middleware.py)

`AntiSpamMiddleware.__call__` for one user, as a function of the guard
state, the current `time.monotonic()` value, and the incoming message.
`passed` means the downstream handler is invoked; both `dropped*` results
return `None` without any outbound message.  The md5 hash of the body is
modelled by the body itself (the hash is used only as a dict key and is
injective for the program's purposes).  The periodic `_cleanup` is a
cross-user garbage collection: for a single user it removes only entries
the per-call window filters discard anyway (rate) or empty buckets
(dedup), so it cannot change any result below and is not modelled. -/

structure GuardCfg where
  RATE_LIMIT_MESSAGES : Nat
  RATE_LIMIT_SECONDS : Rat
  DEDUP_SECONDS : Rat
deriving DecidableEq

/-- config.py `Settings` defaults: 3 messages / 5 seconds, 30-second dedup. -/
def defaultSettings : GuardCfg :=
  { RATE_LIMIT_MESSAGES := 3, RATE_LIMIT_SECONDS := 5, DEDUP_SECONDS := 30 }

/-- middleware.py `_DEDUP_MIN_LENGTH`. -/
def DEDUP_MIN_LENGTH : Nat := 30

/-- One inbound message as the middleware sees it: `event.text` and the
truthiness of `event.contact`. -/
structure MsgEvent where
  text : Option String
  hasContact : Bool
deriving DecidableEq

/-- `event.text and event.text.startswith("/")` (an empty or absent text is
falsy and the check fails, exactly as `startswith` on it would). -/
def isCommand (m : MsgEvent) : Bool :=
  startsWithStr "/" (m.text.getD "")

/-- Per-user middleware state: the rate-window timestamps and the dedup
bucket (body ↦ first-seen time). -/
structure GuardState where
  rate : List Rat
  dedup : List (String × Rat)
deriving DecidableEq

inductive GuardResult where
  | passed
  | droppedRate
  | droppedDedup
deriving DecidableEq

def antiSpamCall (cfg : GuardCfg) (st : GuardState) (now : Rat) (m : MsgEvent) :
    GuardResult × GuardState :=
  if isCommand m then (.passed, st)
  else if m.hasContact then (.passed, st)
  else
    let cutoff := now - cfg.RATE_LIMIT_SECONDS
    let ts := st.rate.filter fun t => decide (cutoff < t)
    if cfg.RATE_LIMIT_MESSAGES ≤ ts.length then
      (.droppedRate, { st with rate := ts })
    else
      let ts2 := ts ++ [now]
      let text := m.text.getD ""
      if DEDUP_MIN_LENGTH ≤ text.length then
        let bucket := st.dedup.filter fun kv => decide (now - kv.2 < cfg.DEDUP_SECONDS)
        if bucket.any fun kv => kv.1 = text then
          (.droppedDedup, { rate := ts2, dedup := bucket })
        else
          (.passed, { rate := ts2, dedup := bucket ++ [(text, now)] })
      else
        (.passed, { st with rate := ts2 })

/-- Fold `antiSpamCall` over a timed message sequence, collecting results. -/
def runGuard (cfg : GuardCfg) (st : GuardState) :
    List (Rat × MsgEvent) → List GuardResult
  | [] => []
  | (t, m) :: rest =>
    let r := antiSpamCall cfg st t m
    r.1 :: runGuard cfg r.2 rest

/-! ## Supporting definitions for the claims -/

/-- Modelled from the spec: "contains at least one digit" (the phone-input
requirement the spec states). -/
def containsDigit (s : String) : Bool :=
  s.data.any fun c => c.isDigit

/-- common.py `cmd_start` (the aiogram `/start` handler that actually wins:
common.router precedes funnel.router in main.py).  `newMsgId` is the id of
the welcome message just sent. -/
def cmd_start (newMsgId : Nat) (_cs : ConvState) : List Effect × ConvState :=
  ([.sendText "⏳", .sendText WELCOME_TEXT],
   (some .service, { emptyConvData with card_id := some newMsgId }))

/-- The `"prefix:"` shapes of the step-selection callbacks the funnel
registers, each guarded by an `OrderForm` state filter. -/
def stepSelPrefixes : List String :=
  ["service:", "cargo:", "country:", "city:", "invoice:", "curgency:",
   "weight:", "volume:", "urgency:", "terms:"]

/-- An ordinary text message (no contact payload). -/
def plainMsg (s : String) : MsgEvent := { text := some s, hasContact := false }

/-- A 35-character message body, above the dedup length threshold. -/
def long35 : String := "aaaaaaaaaaaaaaaaaaaaaaaaaaaaaaaaaaa"

/-- The delivery-track scenario of the spec, step by step. -/
def c5User : TgUser := { id := 100, username := "user", full_name := "User" }

def c5State0 : ConvState := (cmd_start 1 (none, emptyConvData)).2

def c5State1 : ConvState := (pick_service "delivery" c5State0).2

def c5State2 : ConvState := (pick_country "china" c5State1).2

def c5State3 : ConvState := (pick_city "city:china:Гуанчжоу" c5State2).2

def c5State4 : ConvState := (pick_cargo "electronics" c5State3).2

def c5State5 : ConvState := (pick_weight "w_500" c5State4).2

def c5State6 : ConvState := (pick_volume "v_5" c5State5).2

def c5State7 : ConvState := (pick_urgency "standard" c5State6).2

def c5State8 : ConvState := (pick_incoterms "exw" c5State7).2

def c5State9 : ConvState := (type_phone (some "+79991234567") c5State8).2

/-- The in-memory lead record `_finish_order` builds when the comment is
skipped after the run above. -/
def c5Lead : LeadData := buildLeadData c5User { c5State9.2 with comment := some "" }

/-- One submission at a funnel step: the constructor identifies the source
handler, the payload the answer (`pick_*` carry the value extracted from the
callback data, `pick_city` the whole callback string, `type_*` the message
text).  Only steps whose successor screen shows a back button are included
(`pick_customs_urgency` and `pick_incoterms` lead to the phone step, whose
screen has no back button). -/
inductive SubmitEvent where
  | svc (v : String)
  | ccargo (v : String)
  | ccountryPick (v : String)
  | ccountryText (s : Option String)
  | invoicePick (v : String)
  | invoiceText (s : Option String)
  | countryPick (v : String)
  | countryText (s : Option String)
  | cityPick (dataStr : String)
  | cityText (s : Option String)
  | cargoPick (v : String)
  | weightPick (v : String)
  | weightText (s : Option String)
  | volumePick (v : String)
  | volumeText (s : Option String)
  | urgencyPick (v : String)

def applySubmit : SubmitEvent → ConvState → List Effect × ConvState
  | .svc v, cs => pick_service v cs
  | .ccargo v, cs => pick_customs_cargo v cs
  | .ccountryPick v, cs => pick_customs_country v cs
  | .ccountryText s, cs => type_customs_country s cs
  | .invoicePick v, cs => pick_invoice v cs
  | .invoiceText s, cs => type_invoice s cs
  | .countryPick v, cs => pick_country v cs
  | .countryText s, cs => type_other_country s cs
  | .cityPick ds, cs => pick_city ds cs
  | .cityText s, cs => type_city s cs
  | .cargoPick v, cs => pick_cargo v cs
  | .weightPick v, cs => pick_weight v cs
  | .weightText s, cs => type_weight s cs
  | .volumePick v, cs => pick_volume v cs
  | .volumeText s, cs => type_volume s cs
  | .urgencyPick v, cs => pick_urgency v cs

/-- The FSM state whose handler consumes the event. -/
def submitStep : SubmitEvent → OrderForm
  | .svc _ => .service
  | .ccargo _ => .customs_cargo
  | .ccountryPick _ => .customs_country
  | .ccountryText _ => .customs_country
  | .invoicePick _ => .invoice_value
  | .invoiceText _ => .invoice_value
  | .countryPick _ => .country
  | .countryText _ => .country
  | .cityPick _ => .city
  | .cityText _ => .city
  | .cargoPick _ => .cargo_type
  | .weightPick _ => .weight
  | .weightText _ => .weight
  | .volumePick _ => .volume
  | .volumeText _ => .volume
  | .urgencyPick _ => .urgency

/-- The `back:` target of the back button shown on the screen the event
advances to; `handle_back` on it returns to `submitStep`. -/
def backTargetOf : SubmitEvent → String
  | .svc _ => "service"
  | .ccargo _ => "customs_cargo"
  | .ccountryPick _ => "customs_country"
  | .ccountryText _ => "customs_country"
  | .invoicePick _ => "invoice"
  | .invoiceText _ => "invoice"
  | .countryPick _ => "country"
  | .countryText _ => "country"
  | .cityPick _ => "city"
  | .cityText _ => "city"
  | .cargoPick _ => "cargo"
  | .weightPick _ => "weight"
  | .weightText _ => "weight"
  | .volumePick _ => "volume"
  | .volumeText _ => "volume"
  | .urgencyPick _ => "urgency"

/-- Whether the submission is accepted and advances the step: selection
events advance unless they pick the custom/other option; text events
advance when validation passes. -/
def advances : SubmitEvent → Bool
  | .svc _ => true
  | .ccargo _ => true
  | .ccountryPick v => decide (v ≠ "other")
  | .ccountryText s => decide (2 ≤ (pyStrip (s.getD "").data).length)
  | .invoicePick v => decide (v ≠ "__custom__")
  | .invoiceText s =>
    match pyFloat ⟨pyStrip (pyDropChar '$' (pyReplaceChar ',' '.' (s.getD "").data))⟩ with
    | some num => decide (0 < num)
    | none => false
  | .countryPick v => decide (v ≠ "other")
  | .countryText s => decide (2 ≤ (pyStrip (s.getD "").data).length)
  | .cityPick ds =>
    decide (3 ≤ (splitColonMax2 ds.data).length) &&
      decide ((⟨(splitColonMax2 ds.data)[2]?.getD []⟩ : String) ≠ "__custom__")
  | .cityText s => decide (2 ≤ (pyStrip (s.getD "").data).length)
  | .cargoPick _ => true
  | .weightPick v => decide (v ≠ "__custom__")
  | .weightText s =>
    match pyFloat ⟨pyStrip (pyReplaceChar ',' '.' (s.getD "").data)⟩ with
    | some w => decide (0 < w)
    | none => false
  | .volumePick v => decide (v ≠ "__custom__")
  | .volumeText s =>
    match pyFloat ⟨pyStrip (pyReplaceChar ',' '.' (s.getD "").data)⟩ with
    | some v => decide (0 < v)
    | none => false
  | .urgencyPick _ => true

/-! ## Theorems -/

/-- Claim C1 (the code contradicts the claimed behaviour): when the Lead
Store save raises during finalization of a completed funnel run (here the
skip-comment finalization of the delivery scenario, with `saveRes = none`
modelling `save_lead` raising), the handler aborts at the `save_lead` call:
the only effect emitted is the markup-clearing edit that precedes the call —
the user receives no confirmation, no staff notification is attempted, and
the exception escapes the handler.  The spec instead promises a confirmation
plus notification from the in-memory lead data. -/
theorem c1_save_failure_aborts :
    skip_comment c5User [555] (fun _ => true) none c5State9
      = ([Effect.clearMarkup],
         ((some OrderForm.comment, { c5State9.2 with comment := some "" }), true)) := by
  decide

/-- Claim C2 (the code contradicts the claimed behaviour): the per-user
state is cleared only when `save_lead` returns.  When the save raises, the
FSM state is left at `comment` (first conjunct) — the state is not cleared
unconditionally; it is cleared when the save succeeds even if every staff
notification fails (second conjunct). -/
theorem c2_state_clearing :
    ((skip_comment c5User [555] (fun _ => true) none c5State9).2.1.1
      = some OrderForm.comment) ∧
    ((skip_comment c5User [555] (fun _ => false) (some 7) c5State9).2.1
      = (none, emptyConvData)) := by
  decide

/-- Claim C3 (amended): at the phone step a free-text input is accepted iff
its stripped length is at least 6 — there is no digit requirement.  A
shorter input is rejected with the retry prompt and the state and data are
left unchanged; an accepted input stores the phone and advances to the
comment step. -/
theorem c3_phone_validation (t : Option String) (cs : ConvState) :
    ((pyStrip (t.getD "").data).length < 6 →
      type_phone t cs = ([Effect.sendText warnPhone], cs)) ∧
    (6 ≤ (pyStrip (t.getD "").data).length →
      (type_phone t cs).2.1 = some OrderForm.comment ∧
      (type_phone t cs).2.2.phone = some ⟨pyStrip (t.getD "").data⟩) := by
  constructor
  · intro h
    simp [type_phone, h]
  · intro h
    simp [type_phone, Nat.not_lt.mpr h]

/-- Claim C3 counterexample: the six-letter input "abcdef" contains no digit
yet is accepted at the phone step (state advances to comment and the phone
is stored), refuting the claimed at-least-one-digit requirement. -/
theorem c3_counterexample :
    ((type_phone (some "abcdef") (some OrderForm.phone, emptyConvData)).2.1
      = some OrderForm.comment) ∧
    ((type_phone (some "abcdef") (some OrderForm.phone, emptyConvData)).2.2.phone
      = some "abcdef") ∧
    containsDigit "abcdef" = false := by
  decide

/-- Witness for `c3_phone_validation` at "123" (rejected) and
"+79991234567" (accepted). -/
theorem c3_witness :
    ((pyStrip ((some "123").getD "").data).length < 6 ∧
      type_phone (some "123") (some OrderForm.phone, emptyConvData)
        = ([Effect.sendText warnPhone], (some OrderForm.phone, emptyConvData))) ∧
    (6 ≤ (pyStrip ((some "+79991234567").getD "").data).length ∧
      (type_phone (some "+79991234567") (some OrderForm.phone, emptyConvData)).2.1
        = some OrderForm.comment) :=
  ⟨⟨by decide, (c3_phone_validation (some "123") (some OrderForm.phone, emptyConvData)).1
      (by decide)⟩,
   ⟨by decide, ((c3_phone_validation (some "+79991234567")
      (some OrderForm.phone, emptyConvData)).2 (by decide)).1⟩⟩

/-- Claim C4 (amended): weight/volume resolution is a total function — a
key of the static table resolves to exactly the table value, and a string
that is not a key resolves to its Python `float` parse with `0` on parse
failure.  The parse accepts a dot decimal separator only: comma
normalization happens earlier, in the free-text input handlers, not in
`_resolve_weight`/`_safe_float`. -/
theorem c4_resolution :
    (∀ p ∈ WEIGHT_TO_FLOAT, resolve_weight p.1 = p.2) ∧
    (∀ p ∈ VOLUME_TO_FLOAT, resolve_volume p.1 = p.2) ∧
    (∀ v, alookup WEIGHT_TO_FLOAT v = none → resolve_weight v = (pyFloat v).getD 0) ∧
    (∀ v, alookup VOLUME_TO_FLOAT v = none → resolve_volume v = (pyFloat v).getD 0) := by
  refine ⟨?_, ?_, ?_, ?_⟩
  · intro p hp
    fin_cases hp <;> decide
  · intro p hp
    fin_cases hp <;>
      norm_num [resolve_volume,
        show alookup VOLUME_TO_FLOAT "v_1" = some (1/2 : Rat) from rfl,
        show alookup VOLUME_TO_FLOAT "v_5" = some (3 : Rat) from rfl,
        show alookup VOLUME_TO_FLOAT "v_10" = some (15/2 : Rat) from rfl,
        show alookup VOLUME_TO_FLOAT "v_33" = some (43/2 : Rat) from rfl,
        show alookup VOLUME_TO_FLOAT "v_67" = some (50 : Rat) from rfl,
        show alookup VOLUME_TO_FLOAT "v_67p" = some (80 : Rat) from rfl]
  · intro v h
    simp [resolve_weight, h, safe_float]
    cases pyFloat v <;> simp
  · intro v h
    simp [resolve_volume, h, safe_float]
    cases pyFloat v <;> simp

/-- Claim C4 counterexample: on the comma-decimal string "2,5" the source
resolution yields `0` (Python `float("2,5")` raises, `_safe_float` maps
that to `0.0`), while the spec-worded comma-accepting resolution yields
`5/2` — the "accepting comma as decimal separator" part of the claim does
not hold of `_resolve_weight`/`_safe_float`. -/
theorem c4_counterexample :
    resolve_weight "2,5" = 0 ∧ specResolveWeight "2,5" = 5/2 ∧ (5/2 : Rat) ≠ 0 := by
  refine ⟨by decide, ?_, by norm_num⟩
  have h1 : specNumericParse "2,5"
      = some ((1 : Rat) * ((25 : Nat) : Rat) / (10 : Rat) ^ (1 : Nat)) := rfl
  have h2 : specResolveWeight "2,5" = (specNumericParse "2,5").getD 0 := rfl
  rw [h2, h1]
  norm_num

/-- Witness for `c4_resolution` at the table key "w_500" and the non-key
"2.5". -/
theorem c4_witness :
    ("w_500", (300 : Rat)) ∈ WEIGHT_TO_FLOAT ∧ resolve_weight "w_500" = 300 ∧
    alookup WEIGHT_TO_FLOAT "2.5" = none ∧
    resolve_weight "2.5" = (pyFloat "2.5").getD 0 :=
  ⟨by decide, c4_resolution.1 ("w_500", (300 : Rat)) (by decide), by decide,
   c4_resolution.2.2.1 "2.5" (by decide)⟩

/-- Claim C5: the delivery-track run with country=china, city=Гуанчжоу,
cargo=electronics, weight preset token w_500 ("100–500 кг"), volume preset
token v_5 ("1–5 м³"), urgency=standard, terms=EXW (exw), typed phone
"+79991234567" and a skipped comment reaches the comment step, finalizes,
and the row handed to the Lead Store INSERT has weight_kg=300, volume_m3=3,
status=NEW, service_type=delivery (and the other scenario fields intact). -/
theorem c5_delivery_scenario :
    c5State9.1 = some OrderForm.comment ∧
    skip_comment c5User [555] (fun _ => true) (some 7) c5State9
      = ([Effect.clearMarkup, Effect.sendConfirmation 7 c5Lead,
          Effect.notifyAdmin 555 7 c5Lead, Effect.answerCb none],
         ((none, emptyConvData), false)) ∧
    (save_lead_row c5Lead).weight_kg = 300 ∧
    (save_lead_row c5Lead).volume_m3 = 3 ∧
    (save_lead_row c5Lead).status = "NEW" ∧
    (save_lead_row c5Lead).service_type = "delivery" ∧
    (save_lead_row c5Lead).country = "china" ∧
    (save_lead_row c5Lead).city_from = "Гуанчжоу" ∧
    (save_lead_row c5Lead).phone = "+79991234567" := by
  decide

/-- Claim C6: a step-selection callback (any of the funnel's
selection-callback shapes, and the literal "skip_comment") arriving for a
user with no FSM state matches no funnel handler and lands in the fallback
catch-all, which acknowledges it with the session-expired text, sends the
welcome screen, and restarts the user at the service-selection step. -/
theorem c6_stale_selection_recovered (p : String) (hp : p ∈ stepSelPrefixes)
    (rest : List Char) (newMsgId : Nat) (cs : ConvState) :
    dispatchCallback none ⟨p.data ++ rest⟩ = CbHandler.hExpiredCallback ∧
    dispatchCallback none "skip_comment" = CbHandler.hExpiredCallback ∧
    expired_callback newMsgId cs
      = ([Effect.answerCb (some sessionExpiredText), Effect.sendText WELCOME_TEXT],
         (some OrderForm.service, { emptyConvData with card_id := some newMsgId })) := by
  refine ⟨?_, by decide, rfl⟩
  fin_cases hp <;>
    simp [dispatchCallback, startsWithStr, List.isPrefixOf, String.ext_iff]

/-- Witness for `c6_stale_selection_recovered` at the urgency-step callback
"urgency:standard" (the scenario in the spec). -/
theorem c6_witness :
    "urgency:" ∈ stepSelPrefixes ∧
    dispatchCallback none ⟨"urgency:".data ++ "standard".data⟩
      = CbHandler.hExpiredCallback ∧
    expired_callback 9 (none, emptyConvData)
      = ([Effect.answerCb (some sessionExpiredText), Effect.sendText WELCOME_TEXT],
         (some OrderForm.service, { emptyConvData with card_id := some 9 })) :=
  ⟨by decide,
   (c6_stale_selection_recovered "urgency:" (by decide) "standard".data 9
      (none, emptyConvData)).1,
   (c6_stale_selection_recovered "urgency:" (by decide) "standard".data 9
      (none, emptyConvData)).2.2⟩

/-- Claim C7: with the default settings (RATE_LIMIT_MESSAGES=3,
RATE_LIMIT_SECONDS=5), a non-command, non-contact message arriving when
three timestamps already sit inside the 5-second window is silently dropped
by the rate limiter (no handler call, no outbound message), while a command
(text starting with "/") or a contact share always passes.  The two
concrete runs show the 4th message in 5 seconds dropped, and the same
sequence with a command as 4th message passing. -/
theorem c7_rate_limit (st : GuardState) (now : Rat) (m : MsgEvent) :
    (isCommand m = false → m.hasContact = false →
      3 ≤ (st.rate.filter fun t => decide (now - 5 < t)).length →
      (antiSpamCall defaultSettings st now m).1 = GuardResult.droppedRate) ∧
    (isCommand m = true → (antiSpamCall defaultSettings st now m).1 = .passed) ∧
    (m.hasContact = true → (antiSpamCall defaultSettings st now m).1 = .passed) ∧
    runGuard defaultSettings ⟨[], []⟩
      [(0, plainMsg "a"), (1, plainMsg "b"), (2, plainMsg "c"), (3, plainMsg "d")]
      = [.passed, .passed, .passed, .droppedRate] ∧
    runGuard defaultSettings ⟨[], []⟩
      [(0, plainMsg "a"), (1, plainMsg "b"), (2, plainMsg "c"), (3, plainMsg "/start")]
      = [.passed, .passed, .passed, .passed] := by
  refine ⟨fun h1 h2 h3 => ?_, fun h => ?_, fun h => ?_, ?_, ?_⟩
  · simp [antiSpamCall, h1, h2, defaultSettings, h3]
  · simp [antiSpamCall, h]
  · cases hc : isCommand m <;> simp [antiSpamCall, hc, h]
  · norm_num +decide [runGuard, antiSpamCall, defaultSettings, isCommand,
      startsWithStr, List.isPrefixOf, plainMsg, DEDUP_MIN_LENGTH]
  · norm_num +decide [runGuard, antiSpamCall, defaultSettings, isCommand,
      startsWithStr, List.isPrefixOf, plainMsg, DEDUP_MIN_LENGTH]

/-- Witness for `c7_rate_limit`: three timestamps 0,1,2 in the window at
now=3; the 4th plain message is dropped, a command passes. -/
theorem c7_witness :
    (isCommand (plainMsg "d") = false ∧ (plainMsg "d").hasContact = false ∧
      3 ≤ ((⟨[0, 1, 2], []⟩ : GuardState).rate.filter
            fun t => decide ((3 : Rat) - 5 < t)).length ∧
      (antiSpamCall defaultSettings ⟨[0, 1, 2], []⟩ 3 (plainMsg "d")).1
        = GuardResult.droppedRate) ∧
    (isCommand (plainMsg "/start") = true ∧
      (antiSpamCall defaultSettings ⟨[0, 1, 2], []⟩ 3 (plainMsg "/start")).1
        = GuardResult.passed) :=
  ⟨⟨by decide, by decide, by norm_num,
    (c7_rate_limit ⟨[0, 1, 2], []⟩ 3 (plainMsg "d")).1 (by decide) (by decide)
      (by norm_num)⟩,
   ⟨by decide,
    (c7_rate_limit ⟨[0, 1, 2], []⟩ 3 (plainMsg "/start")).2.1 (by decide)⟩⟩

/-- Claim C8: with DEDUP_SECONDS=30, a non-command message whose body is at
or above the 30-character threshold and already sits in the dedup bucket
less than 30 seconds old is dropped (by dedup, or by the rate limiter if
that fires first — either way the handler is not invoked), while a message
below the threshold is never dropped by deduplication. -/
theorem c8_dedup (st : GuardState) (now t0 : Rat) (m : MsgEvent) (body : String) :
    (m.text = some body → m.hasContact = false → isCommand m = false →
      DEDUP_MIN_LENGTH ≤ body.length →
      (body, t0) ∈ st.dedup → now - t0 < 30 →
      (antiSpamCall defaultSettings st now m).1 ≠ GuardResult.passed) ∧
    ((m.text.getD "").length < DEDUP_MIN_LENGTH →
      (antiSpamCall defaultSettings st now m).1 ≠ GuardResult.droppedDedup) := by
  constructor
  · intro htext hc hcmd hlen hmem hwin
    have hbody : m.text.getD "" = body := by rw [htext]; rfl
    simp only [antiSpamCall, hcmd, hc, Bool.false_eq_true, if_false, defaultSettings]
    split_ifs with h1 h2 h3
    · simp
    · simp
    · exfalso
      apply h3
      rw [List.any_eq_true]
      refine ⟨(body, t0), List.mem_filter.mpr ⟨hmem, by simpa using hwin⟩, ?_⟩
      simp [hbody]
    · exfalso
      exact h2 (by rw [hbody]; exact hlen)
  · intro hshort
    simp only [antiSpamCall]
    split_ifs <;> simp_all
    omega

/-- Witness for `c8_dedup`: a 35-character body repeated after 10 seconds is
dropped; a 10-character body in the same state is not dedup-dropped. -/
theorem c8_witness :
    ((plainMsg long35).text = some long35 ∧
      (plainMsg long35).hasContact = false ∧
      isCommand (plainMsg long35) = false ∧
      DEDUP_MIN_LENGTH ≤ long35.length ∧
      (long35, (0 : Rat)) ∈ (⟨[0], [(long35, 0)]⟩ : GuardState).dedup ∧
      (10 : Rat) - 0 < 30 ∧
      (antiSpamCall defaultSettings ⟨[0], [(long35, 0)]⟩ 10 (plainMsg long35)).1
        ≠ GuardResult.passed) ∧
    (((plainMsg "1234567890").text.getD "").length < DEDUP_MIN_LENGTH ∧
      (antiSpamCall defaultSettings ⟨[0], [(long35, 0)]⟩ 10 (plainMsg "1234567890")).1
        ≠ GuardResult.droppedDedup) :=
  ⟨⟨by decide, by decide, by decide, by decide, by decide, by norm_num,
    (c8_dedup ⟨[0], [(long35, 0)]⟩ 10 0 (plainMsg long35) long35).1
      (by decide) (by decide) (by decide) (by decide) (by decide) (by norm_num)⟩,
   ⟨by decide,
    (c8_dedup ⟨[0], [(long35, 0)]⟩ 10 0 (plainMsg "1234567890") long35).2
      (by decide)⟩⟩

set_option maxHeartbeats 1600000 in
/-- Claim C9: for every accepted submission at a funnel step, going back
from the resulting screen (via the back target that screen shows) and
re-submitting the same answer leaves the FSM state and the accumulated data
identical to the run that never navigated back — back navigation preserves
the accumulated data, and each handler writes its fields idempotently. -/
theorem c9_back_redo_idempotent (e : SubmitEvent) (cs : ConvState)
    (h : advances e = true) :
    (handle_back ("back:" ++ backTargetOf e) (applySubmit e cs).2).2
      = (some (submitStep e), (applySubmit e cs).2.2) ∧
    (applySubmit e ((handle_back ("back:" ++ backTargetOf e) (applySubmit e cs).2).2)).2
      = (applySubmit e cs).2 := by
  cases e with
  | svc v =>
    by_cases hv : v = "customs"
    · subst hv
      exact ⟨rfl, rfl⟩
    · simp only [applySubmit, backTargetOf, submitStep, pick_service]
      simp only [if_neg hv]
      exact ⟨rfl, rfl⟩
  | ccargo v => exact ⟨rfl, rfl⟩
  | ccountryPick v =>
    simp only [advances, decide_eq_true_eq] at h
    simp only [applySubmit, backTargetOf, submitStep, pick_customs_country]
    simp only [if_neg h]
    exact ⟨rfl, rfl⟩
  | ccountryText s =>
    simp only [advances, decide_eq_true_eq] at h
    simp only [applySubmit, backTargetOf, submitStep, type_customs_country]
    simp only [if_neg (Nat.not_lt.mpr h)]
    exact ⟨rfl, rfl⟩
  | invoicePick v =>
    simp only [advances, decide_eq_true_eq] at h
    simp only [applySubmit, backTargetOf, submitStep, pick_invoice]
    simp only [if_neg h]
    exact ⟨rfl, rfl⟩
  | invoiceText s =>
    simp only [advances] at h
    cases hf : pyFloat ⟨pyStrip (pyDropChar '$' (pyReplaceChar ',' '.' ((s.getD "").data)))⟩ with
    | none => rw [hf] at h; exact absurd h (by simp)
    | some num =>
      rw [hf] at h
      simp only [decide_eq_true_eq] at h
      simp only [applySubmit, backTargetOf, submitStep, type_invoice, hf]
      simp only [if_neg (not_le.mpr h)]
      exact ⟨rfl, rfl⟩
  | countryPick v =>
    simp only [advances, decide_eq_true_eq] at h
    simp only [applySubmit, backTargetOf, submitStep, pick_country]
    simp only [if_neg h]
    exact ⟨rfl, rfl⟩
  | countryText s =>
    simp only [advances, decide_eq_true_eq] at h
    simp only [applySubmit, backTargetOf, submitStep, type_other_country]
    simp only [if_neg (Nat.not_lt.mpr h)]
    exact ⟨rfl, rfl⟩
  | cityPick ds =>
    simp only [advances, Bool.and_eq_true, decide_eq_true_eq] at h
    simp only [applySubmit, backTargetOf, submitStep, pick_city]
    simp only [if_neg (Nat.not_lt.mpr h.1), if_neg h.2]
    exact ⟨rfl, rfl⟩
  | cityText s =>
    simp only [advances, decide_eq_true_eq] at h
    simp only [applySubmit, backTargetOf, submitStep, type_city]
    simp only [if_neg (Nat.not_lt.mpr h)]
    exact ⟨rfl, rfl⟩
  | cargoPick v => exact ⟨rfl, rfl⟩
  | weightPick v =>
    simp only [advances, decide_eq_true_eq] at h
    simp only [applySubmit, backTargetOf, submitStep, pick_weight]
    simp only [if_neg h]
    exact ⟨rfl, rfl⟩
  | weightText s =>
    simp only [advances] at h
    cases hf : pyFloat ⟨pyStrip (pyReplaceChar ',' '.' ((s.getD "").data))⟩ with
    | none => rw [hf] at h; exact absurd h (by simp)
    | some w =>
      rw [hf] at h
      simp only [decide_eq_true_eq] at h
      simp only [applySubmit, backTargetOf, submitStep, type_weight, hf]
      simp only [if_neg (not_le.mpr h)]
      exact ⟨rfl, rfl⟩
  | volumePick v =>
    simp only [advances, decide_eq_true_eq] at h
    simp only [applySubmit, backTargetOf, submitStep, pick_volume]
    simp only [if_neg h]
    exact ⟨rfl, rfl⟩
  | volumeText s =>
    simp only [advances] at h
    cases hf : pyFloat ⟨pyStrip (pyReplaceChar ',' '.' ((s.getD "").data))⟩ with
    | none => rw [hf] at h; exact absurd h (by simp)
    | some v =>
      rw [hf] at h
      simp only [decide_eq_true_eq] at h
      simp only [applySubmit, backTargetOf, submitStep, type_volume, hf]
      simp only [if_neg (not_le.mpr h)]
      exact ⟨rfl, rfl⟩
  | urgencyPick v => exact ⟨rfl, rfl⟩

/-- Witness for `c9_back_redo_idempotent` at the weight step with preset
w_500 from an empty accumulated state. -/
theorem c9_witness :
    advances (SubmitEvent.weightPick "w_500") = true ∧
    (handle_back ("back:" ++ backTargetOf (SubmitEvent.weightPick "w_500"))
        (applySubmit (SubmitEvent.weightPick "w_500")
          (some OrderForm.weight, emptyConvData)).2).2
      = (some (submitStep (SubmitEvent.weightPick "w_500")),
         (applySubmit (SubmitEvent.weightPick "w_500")
           (some OrderForm.weight, emptyConvData)).2.2) ∧
    (applySubmit (SubmitEvent.weightPick "w_500")
        ((handle_back ("back:" ++ backTargetOf (SubmitEvent.weightPick "w_500"))
          (applySubmit (SubmitEvent.weightPick "w_500")
            (some OrderForm.weight, emptyConvData)).2).2)).2
      = (applySubmit (SubmitEvent.weightPick "w_500")
          (some OrderForm.weight, emptyConvData)).2 :=
  ⟨by decide,
   (c9_back_redo_idempotent (SubmitEvent.weightPick "w_500")
      (some OrderForm.weight, emptyConvData) (by decide)).1,
   (c9_back_redo_idempotent (SubmitEvent.weightPick "w_500")
      (some OrderForm.weight, emptyConvData) (by decide)).2⟩

/-- Claim C10: the back-navigation and post-submission action handlers are
registered with no FSM-state filter, so in every state — including a user
with no state at all — a "back:*" callback routes to `handle_back` and the
"action:*" callbacks to their handlers, never to the session-expired
fallback; a stale "back:weight" after state loss re-renders the weight step
from the empty accumulated data and sets the state to `weight`. -/
theorem c10_back_action_bypass (st : Option OrderForm) (rest : List Char) :
    dispatchCallback st ⟨"back:".data ++ rest⟩ = CbHandler.hHandleBack ∧
    dispatchCallback st "action:docs" = CbHandler.hActionDocs ∧
    dispatchCallback st "action:details" = CbHandler.hActionDetails ∧
    dispatchCallback st "action:call" = CbHandler.hActionCall ∧
    dispatchCallback st "action:restart" = CbHandler.hActionRestart ∧
    handle_back "back:weight" (none, emptyConvData)
      = ([Effect.editCard emptyConvData 3 qWeight, Effect.answerCb none],
         (some OrderForm.weight, emptyConvData)) := by
  refine ⟨?_, ?_, ?_, ?_, ?_, by decide⟩ <;>
    simp [dispatchCallback, startsWithStr, List.isPrefixOf, String.ext_iff]

end TEGroup
